import Mathlib

/-!
Shallow embedding of `src/t1.js`, a bridge bot that repeatedly moves small
randomized amounts of ETH between Sepolia and the T1 network.

Amounts of ETH are modelled as rationals (`ℚ`), wei values as rationals as
well (`parseEther` multiplies by `10^18`).  Every external (awaited) call of
the script — balance reads, the fee query, `sendTransaction`, `tx.wait` and
the post-confirmation balance read — is given by an explicit environment
(`BridgeEnv`, `CycleEnv`), whose entries either return a value or throw,
mirroring JavaScript promise rejection.  The statistics record and the
control flow of `bridgeSepoliaToT1`, `bridgeT1ToSepolia` and the cycle loop
of `infiniteBridge` follow the source line by line.
-/

namespace T1Bridge

/-- Chain id of Sepolia (`SEPOLIA_CHAIN_ID` in `t1.js`). -/
def SEPOLIA_CHAIN_ID : Nat := 11155111

/-- Chain id of the T1 network (`T1_CHAIN_ID` in `t1.js`). -/
def T1_CHAIN_ID : Nat := 299792

/-- Lower bound of the random bridge amount (`minAmount = 0.0002`). -/
def minAmount : ℚ := 2 / 10000

/-- Upper bound of the random bridge amount (`maxAmount = 0.01`). -/
def maxAmount : ℚ := 1 / 100

/-- The configured receiver address constant (`RECEIVER_ADDRESS`). -/
def RECEIVER_ADDRESS : String := "YOUR RECEIVER"

/-- Address of the Sepolia-side bridge contract. -/
def SEPOLIA_TO_T1_BRIDGE : String := "0xAFdF5cb097D6FB2EB8B1FFbAB180e667458e18F4"

/-- Address of the T1-side bridge contract. -/
def T1_TO_SEPOLIA_BRIDGE : String := "0x627B3692969b7330b8Faed2A8836A41EB4aC1918"

/-- Timeout in milliseconds used in the `Promise.race` against `tx.wait(1)`
(the literal `120000` in `t1.js`). -/
def confirmTimeoutMs : Nat := 120000

/-- Model of `ethers.utils.parseEther`: an ETH amount becomes a wei value. -/
def parseEther (amountETH : ℚ) : ℚ := amountETH * 10 ^ 18

/-- Per-direction statistics record, as in the `stats` object of `t1.js`. -/
structure DirStats where
  attempts : Nat
  successes : Nat
  failures : Nat
  totalBridged : ℚ
deriving DecidableEq, Repr

/-- Initial per-direction statistics: all counters zero. -/
def dirStats0 : DirStats := ⟨0, 0, 0, 0⟩

/-- The process-wide `stats` object: one record per direction. -/
structure Stats where
  sepoliaToT1 : DirStats
  t1ToSepolia : DirStats
deriving DecidableEq, Repr

/-- Initial statistics. -/
def stats0 : Stats := ⟨dirStats0, dirStats0⟩

/-- Result of one awaited external call: a value, or a thrown exception. -/
inductive ExtResult (α : Type) where
  | ok (val : α)
  | thrown
deriving DecidableEq, Repr

/-- Whether an external call returned normally. -/
def ExtResult.isOk {α : Type} : ExtResult α → Bool
  | .ok _ => true
  | .thrown => false

/-- Behaviour of `tx.wait(n)`: it resolves with a receipt status after some
delay, rejects after some delay, or never settles. -/
inductive WaitResult where
  | resolves (afterMs : Nat) (status : Nat)
  | rejects (afterMs : Nat)
  | never
deriving DecidableEq, Repr

/-- Outcome of racing `tx.wait(1)` against the 120000 ms rejection timer. -/
inductive WaitOutcome where
  | confirmed (status : Nat)
  | timedOut
  | errored
deriving DecidableEq, Repr

/-- Model of `Promise.race([tx.wait(1), rejectAfter(120000)])`: the receipt
(or the wait error) wins only if it settles strictly before the timer. -/
def raceOutcome : WaitResult → WaitOutcome
  | .resolves t s => if t < confirmTimeoutMs then .confirmed s else .timedOut
  | .rejects t => if t < confirmTimeoutMs then .errored else .timedOut
  | .never => .timedOut

/-- Wall-clock time consumed by the race: the settle time, capped by the
timeout. -/
def waitedMs : WaitResult → Nat
  | .resolves t _ => min t confirmTimeoutMs
  | .rejects t => min t confirmTimeoutMs
  | .never => confirmTimeoutMs

/-- Arguments of the `sendMessage(address,uint256,bytes,uint256,uint64,address)`
call encoded by `encodeFunctionData`. -/
structure SendMessageArgs where
  toAddr : String
  value : ℚ
  message : List Nat
  gasLimit : Nat
  destChainId : Nat
  callbackAddress : String
deriving DecidableEq

/-- The transaction request handed to `wallet.sendTransaction`. -/
structure TxRequest where
  toAddr : String
  value : ℚ
  data : SendMessageArgs
  gasLimit : Nat
deriving DecidableEq

/-- The `sendMessage` arguments encoded on the Sepolia → T1 direction:
receiver, amount in wei, empty message, gas limit 168000, T1 chain id,
and the receiver again as callback address. -/
def sepoliaToT1TxData (amountWei : ℚ) : SendMessageArgs :=
  ⟨RECEIVER_ADDRESS, amountWei, [], 168000, T1_CHAIN_ID, RECEIVER_ADDRESS⟩

/-- The transaction request built by `bridgeSepoliaToT1`: the attached value
is the bridged amount plus `parseEther("0.0001")`. -/
def sepoliaToT1Tx (amountETH : ℚ) : TxRequest :=
  let amountWei := parseEther amountETH
  let txValueWei := amountWei + parseEther (1 / 10000)
  ⟨SEPOLIA_TO_T1_BRIDGE, txValueWei, sepoliaToT1TxData amountWei, 300000⟩

/-- The `sendMessage` arguments encoded on the T1 → Sepolia direction:
receiver, amount in wei, empty message, gas limit 0, Sepolia chain id,
and the receiver again as callback address. -/
def t1ToSepoliaTxData (amountWei : ℚ) : SendMessageArgs :=
  ⟨RECEIVER_ADDRESS, amountWei, [], 0, SEPOLIA_CHAIN_ID, RECEIVER_ADDRESS⟩

/-- The transaction request built by `bridgeT1ToSepolia`: the attached value
equals the bridged amount exactly. -/
def t1ToSepoliaTx (amountETH : ℚ) : TxRequest :=
  let amountWei := parseEther amountETH
  ⟨T1_TO_SEPOLIA_BRIDGE, amountWei, t1ToSepoliaTxData amountWei, 300000⟩

/-- Environment of one bridge call: the wallet address derived from the
private key, and the behaviour of each awaited external call.  `feeData`
stands for `getFeeData()` on the Sepolia direction and `getGasPrice()` on
the T1 direction; `wait` gives the behaviour of `tx.wait(n)` as a function
of the requested confirmation count. -/
structure BridgeEnv where
  walletAddress : String
  startBalance : ExtResult ℚ
  feeData : ExtResult Unit
  send : ExtResult Unit
  wait : Nat → WaitResult
  endBalance : ExtResult ℚ

/-- Result of one bridge call: the updated per-direction statistics, the
return value (`.ok amount` for a normal return, `.thrown` when the function
rethrows), the request that was handed to `sendTransaction` (if the call was
reached), and the time spent waiting for confirmation. -/
structure BridgeResult where
  stats : DirStats
  ret : ExtResult ℚ
  sentTx : Option TxRequest
  waitedMs : Nat

/-- Model of `bridgeSepoliaToT1(privateKey, amountETH)`.  The attempts
counter increments first; the start balance read, the fee query and
`sendTransaction` each throw to the outer catch (failure counted, error
rethrown); the confirmation race either confirms with a status, times out,
or errors — status 1 records a success (and then reads the end balance,
whose failure lands in the inner catch and additionally counts a failure),
while every other receipt path counts a failure and returns normally. -/
def bridgeSepoliaToT1 (env : BridgeEnv) (amountETH : ℚ) (st : DirStats) :
    BridgeResult :=
  let st1 : DirStats := { st with attempts := st.attempts + 1 }
  match env.startBalance with
  | .thrown => ⟨{ st1 with failures := st1.failures + 1 }, .thrown, none, 0⟩
  | .ok _ =>
    let tx := sepoliaToT1Tx amountETH
    match env.feeData with
    | .thrown => ⟨{ st1 with failures := st1.failures + 1 }, .thrown, none, 0⟩
    | .ok _ =>
      match env.send with
      | .thrown =>
          ⟨{ st1 with failures := st1.failures + 1 }, .thrown, some tx, 0⟩
      | .ok _ =>
        let wMs := waitedMs (env.wait 1)
        match raceOutcome (env.wait 1) with
        | .confirmed s =>
          if s = 1 then
            let st2 : DirStats :=
              { st1 with successes := st1.successes + 1,
                         totalBridged := st1.totalBridged + amountETH }
            match env.endBalance with
            | .thrown =>
                ⟨{ st2 with failures := st2.failures + 1 }, .ok amountETH,
                  some tx, wMs⟩
            | .ok _ => ⟨st2, .ok amountETH, some tx, wMs⟩
          else
            ⟨{ st1 with failures := st1.failures + 1 }, .ok amountETH,
              some tx, wMs⟩
        | .timedOut =>
            ⟨{ st1 with failures := st1.failures + 1 }, .ok amountETH,
              some tx, wMs⟩
        | .errored =>
            ⟨{ st1 with failures := st1.failures + 1 }, .ok amountETH,
              some tx, wMs⟩

/-- Model of `bridgeT1ToSepolia(privateKey, amountETH)`: same control flow
as the Sepolia direction, with the T1-side transaction request. -/
def bridgeT1ToSepolia (env : BridgeEnv) (amountETH : ℚ) (st : DirStats) :
    BridgeResult :=
  let st1 : DirStats := { st with attempts := st.attempts + 1 }
  match env.startBalance with
  | .thrown => ⟨{ st1 with failures := st1.failures + 1 }, .thrown, none, 0⟩
  | .ok _ =>
    let tx := t1ToSepoliaTx amountETH
    match env.feeData with
    | .thrown => ⟨{ st1 with failures := st1.failures + 1 }, .thrown, none, 0⟩
    | .ok _ =>
      match env.send with
      | .thrown =>
          ⟨{ st1 with failures := st1.failures + 1 }, .thrown, some tx, 0⟩
      | .ok _ =>
        let wMs := waitedMs (env.wait 1)
        match raceOutcome (env.wait 1) with
        | .confirmed s =>
          if s = 1 then
            let st2 : DirStats :=
              { st1 with successes := st1.successes + 1,
                         totalBridged := st1.totalBridged + amountETH }
            match env.endBalance with
            | .thrown =>
                ⟨{ st2 with failures := st2.failures + 1 }, .ok amountETH,
                  some tx, wMs⟩
            | .ok _ => ⟨st2, .ok amountETH, some tx, wMs⟩
          else
            ⟨{ st1 with failures := st1.failures + 1 }, .ok amountETH,
              some tx, wMs⟩
        | .timedOut =>
            ⟨{ st1 with failures := st1.failures + 1 }, .ok amountETH,
              some tx, wMs⟩
        | .errored =>
            ⟨{ st1 with failures := st1.failures + 1 }, .ok amountETH,
              some tx, wMs⟩

/-- Whether a receipt with status 1 was obtained before the timeout. -/
def isConfirmedOne : WaitOutcome → Bool
  | .confirmed s => s == 1
  | _ => false

/-- The balance read, fee query and `sendTransaction` all returned. -/
def okPath (env : BridgeEnv) : Bool :=
  env.startBalance.isOk && env.feeData.isOk && env.send.isOk

/-- The call reached the confirmation race and obtained a status-1 receipt. -/
def successPath (env : BridgeEnv) : Bool :=
  okPath env && isConfirmedOne (raceOutcome (env.wait 1))

/-- A status-1 receipt was obtained and the post-confirmation balance read
also returned, so no failure is recorded at all. -/
def cleanSuccess (env : BridgeEnv) : Bool :=
  successPath env && env.endBalance.isOk

/-- Model of `Number.prototype.toFixed(6)` followed by `parseFloat`:
rounding to the nearest multiple of `10 ^ (-6)`, halves rounding up. -/
def round6 (q : ℚ) : ℚ := (⌊q * 1000000 + 1 / 2⌋ : ℚ) / 1000000

/-- Model of `getRandomAmount(min = minAmount, max = maxAmount)` from
`infiniteBridge`: `r` stands for the value drawn by `Math.random()` and lies
in `[0, 1)`. -/
def getRandomAmount (r : ℚ) : ℚ :=
  round6 (r * (maxAmount - minAmount) + minAmount)

/-- Environment of one iteration of the `while (true)` loop of
`infiniteBridge`: the two `Math.random()` draws, the two balance reads at
the top of the cycle, and the bridge environments consumed by the two
directional bridge calls. -/
structure CycleEnv where
  rand1 : ℚ
  rand2 : ℚ
  sepoliaBalance : ExtResult ℚ
  t1Balance : ExtResult ℚ
  sepoliaEnv : BridgeEnv
  t1Env : BridgeEnv

/-- Observable outcome of one cycle iteration: the updated statistics, the
list of `sleep` durations in order, the extra wall-clock time spent inside
confirmation waits, whether the `catch` block of the cycle ran, and which
directional branches were taken (`Invoked` = the bridge call ran,
`Skipped` = the insufficient-funds warning branch ran). -/
structure CycleOutcome where
  stats : Stats
  sleeps : List Nat
  extraWaitMs : Nat
  errorCaught : Bool
  sepoliaInvoked : Bool
  sepoliaSkipped : Bool
  t1Invoked : Bool
  t1Skipped : Bool

/-- Second half of a cycle: the mid-cycle sleep, the T1 → Sepolia balance
guard and bridge call, and the trailing sleep; a rethrown bridge error jumps
to the catch block, which sleeps `delay * 2000` milliseconds. -/
def cycleTail (delay : Nat) (env : CycleEnv) (aT bT : ℚ) (st : Stats)
    (extraMs : Nat) (invS skipS : Bool) : CycleOutcome :=
  if bT ≥ aT * (11 / 10) then
    let r := bridgeT1ToSepolia env.t1Env aT st.t1ToSepolia
    let st1 : Stats := { st with t1ToSepolia := r.stats }
    match r.ret with
    | .thrown =>
        ⟨st1, [delay * 1000, delay * 2000], extraMs + r.waitedMs,
          true, invS, skipS, true, false⟩
    | .ok _ =>
        ⟨st1, [delay * 1000, delay * 1000], extraMs + r.waitedMs,
          false, invS, skipS, true, false⟩
  else
    ⟨st, [delay * 1000, delay * 1000], extraMs, false, invS, skipS,
      false, true⟩

/-- One iteration of the `while (true)` loop of `infiniteBridge`: draw the
two amounts, read both balances (either read throwing lands in the catch
block), run the Sepolia → T1 branch guarded by
`parseFloat(sepoliaBalance) >= sepoliaAmount * 1.1`, then the T1 → Sepolia
half via `cycleTail`. -/
def cycleStep (delay : Nat) (env : CycleEnv) (st : Stats) : CycleOutcome :=
  let aS := getRandomAmount env.rand1
  let aT := getRandomAmount env.rand2
  match env.sepoliaBalance with
  | .thrown => ⟨st, [delay * 2000], 0, true, false, false, false, false⟩
  | .ok bS =>
    match env.t1Balance with
    | .thrown => ⟨st, [delay * 2000], 0, true, false, false, false, false⟩
    | .ok bT =>
      if bS ≥ aS * (11 / 10) then
        let r := bridgeSepoliaToT1 env.sepoliaEnv aS st.sepoliaToT1
        let st1 : Stats := { st with sepoliaToT1 := r.stats }
        match r.ret with
        | .thrown =>
            ⟨st1, [delay * 2000], r.waitedMs, true, true, false,
              false, false⟩
        | .ok _ => cycleTail delay env aT bT st1 r.waitedMs true false
      else
        cycleTail delay env aT bT st 0 false true

/-- Running state of the loop: the statistics plus the wall-clock
milliseconds consumed so far (sleeps plus confirmation waits). -/
structure RunState where
  stats : Stats
  elapsedMs : Nat

/-- Model of `infiniteBridge(privateKey, delaySeconds)` run for a given
number of cycles: starting from zeroed statistics, each cycle transforms
the state through `cycleStep` and accumulates the time it consumed. -/
def infiniteBridge (delay : Nat) (envs : Nat → CycleEnv) : Nat → RunState
  | 0 => ⟨stats0, 0⟩
  | k + 1 =>
    let s := infiniteBridge delay envs k
    let o := cycleStep delay (envs k) s.stats
    ⟨o.stats, s.elapsedMs + o.sleeps.sum + o.extraWaitMs⟩

/-- A bridge environment in which every external call returns and the
transaction confirms immediately with status 1. -/
def goodBridgeEnv : BridgeEnv :=
  ⟨"0xgood", .ok 1000, .ok (), .ok (), fun _ => .resolves 0 1, .ok 1000⟩

/-- A cycle environment with ample balances on both chains, deterministic
zero random draws, and immediately confirming bridges. -/
def goodCycleEnv : CycleEnv :=
  ⟨0, 0, .ok 1000, .ok 1000, goodBridgeEnv, goodBridgeEnv⟩

/-- A bridge environment whose confirmation never arrives but every other
external call returns. -/
def timeoutEnv : BridgeEnv :=
  ⟨"0xwallet", .ok 1, .ok (), .ok (), fun _ => .never, .ok 1⟩

/-- A bridge environment in which `sendTransaction` throws. -/
def sendFailEnv : BridgeEnv :=
  ⟨"0xwallet", .ok 1, .ok (), .thrown, fun _ => .never, .ok 1⟩

/-- A bridge environment that confirms with status 1 but whose
post-confirmation balance read throws. -/
def doubleCountEnv : BridgeEnv :=
  ⟨"0xwallet", .ok 1, .ok (), .ok (), fun _ => .resolves 0 1, .thrown⟩

/-- A bridge environment whose wallet address differs from the configured
receiver constant; everything returns and the transaction confirms. -/
def otherWalletEnv : BridgeEnv :=
  ⟨"0x1234", .ok 1, .ok (), .ok (), fun _ => .resolves 0 1, .ok 1⟩

/-- A cycle environment whose Sepolia balance read throws. -/
def badBalanceEnv : CycleEnv :=
  ⟨0, 0, .thrown, .ok 1000, goodBridgeEnv, goodBridgeEnv⟩

/-- Closed form of `bridgeSepoliaToT1`: the attempts counter always steps by
one, success and failure counters and the returned value are governed by
`successPath`, `cleanSuccess` and `okPath`. -/
lemma bridgeSepoliaToT1_eq (env : BridgeEnv) (a : ℚ) (st : DirStats) :
    bridgeSepoliaToT1 env a st =
      ⟨⟨st.attempts + 1,
        st.successes + (if successPath env then 1 else 0),
        st.failures + (if cleanSuccess env then 0 else 1),
        st.totalBridged + (if successPath env then a else 0)⟩,
       if okPath env then .ok a else .thrown,
       if env.startBalance.isOk && env.feeData.isOk then some (sepoliaToT1Tx a)
         else none,
       if okPath env then waitedMs (env.wait 1) else 0⟩ := by
  obtain ⟨w, sb, fd, sd, wt, eb⟩ := env
  rcases hw : raceOutcome (wt 1) with s | _ | _ <;>
    cases sb <;> cases fd <;> cases sd <;> cases eb <;>
      simp [bridgeSepoliaToT1, okPath, successPath, cleanSuccess,
        ExtResult.isOk, isConfirmedOne, hw]
  all_goals by_cases hs : s = 1 <;> simp [hs]

/-- Closed form of `bridgeT1ToSepolia`, identical to the Sepolia direction
except for the transaction request. -/
lemma bridgeT1ToSepolia_eq (env : BridgeEnv) (a : ℚ) (st : DirStats) :
    bridgeT1ToSepolia env a st =
      ⟨⟨st.attempts + 1,
        st.successes + (if successPath env then 1 else 0),
        st.failures + (if cleanSuccess env then 0 else 1),
        st.totalBridged + (if successPath env then a else 0)⟩,
       if okPath env then .ok a else .thrown,
       if env.startBalance.isOk && env.feeData.isOk then some (t1ToSepoliaTx a)
         else none,
       if okPath env then waitedMs (env.wait 1) else 0⟩ := by
  obtain ⟨w, sb, fd, sd, wt, eb⟩ := env
  rcases hw : raceOutcome (wt 1) with s | _ | _ <;>
    cases sb <;> cases fd <;> cases sd <;> cases eb <;>
      simp [bridgeT1ToSepolia, okPath, successPath, cleanSuccess,
        ExtResult.isOk, isConfirmedOne, hw]
  all_goals by_cases hs : s = 1 <;> simp [hs]

/-- The zero draw yields the minimum amount. -/
lemma getRandomAmount_zero : getRandomAmount 0 = 1 / 5000 := by
  norm_num [getRandomAmount, round6, minAmount, maxAmount]

/-- The every-call-succeeds cycle performs one immediately confirmed bridge
per direction and sleeps twice for five seconds. -/
lemma cycleStep_good_eq (st : Stats) :
    cycleStep 5 goodCycleEnv st =
      ⟨⟨⟨st.sepoliaToT1.attempts + 1, st.sepoliaToT1.successes + 1,
          st.sepoliaToT1.failures, st.sepoliaToT1.totalBridged + 1 / 5000⟩,
        ⟨st.t1ToSepolia.attempts + 1, st.t1ToSepolia.successes + 1,
          st.t1ToSepolia.failures, st.t1ToSepolia.totalBridged + 1 / 5000⟩⟩,
       [5000, 5000], 0, false, true, false, true, false⟩ := by
  have hg : ((5000:ℚ)⁻¹ * (11 / 10) ≤ 1000) := by norm_num
  simp [cycleStep, cycleTail, goodCycleEnv, goodBridgeEnv, getRandomAmount_zero,
    bridgeSepoliaToT1_eq, bridgeT1ToSepolia_eq, okPath, successPath,
    cleanSuccess, ExtResult.isOk, isConfirmedOne, raceOutcome, waitedMs,
    confirmTimeoutMs, ge_iff_le, hg]

/-- Running the loop in the every-call-succeeds environment with a 5-second
delay: after `k` cycles each direction has attempted `k` bridges and
10 seconds of wall-clock time have passed per cycle. -/
lemma goodRun_spec (k : Nat) :
    (infiniteBridge 5 (fun _ => goodCycleEnv) k).stats.sepoliaToT1.attempts = k ∧
    (infiniteBridge 5 (fun _ => goodCycleEnv) k).stats.t1ToSepolia.attempts = k ∧
    (infiniteBridge 5 (fun _ => goodCycleEnv) k).elapsedMs = k * 10000 := by
  induction k with
  | zero => simp [infiniteBridge, stats0, dirStats0]
  | succ n ih =>
    obtain ⟨h1, h2, h3⟩ := ih
    simp [infiniteBridge, cycleStep_good_eq, h1, h2, h3]
    ring

/-- The second half of a cycle never touches the Sepolia-direction
statistics. -/
lemma cycleTail_sepolia_stats (d : Nat) (env : CycleEnv) (aT bT : ℚ)
    (st : Stats) (e : Nat) (i s : Bool) :
    (cycleTail d env aT bT st e i s).stats.sepoliaToT1 = st.sepoliaToT1 := by
  by_cases h : bT ≥ aT * (11 / 10)
  · by_cases ho : okPath env.t1Env <;>
      simp [cycleTail, h, ho, bridgeT1ToSepolia_eq]
  · simp [cycleTail, h]

/-- The second half of a cycle advances the T1-direction attempts counter by
zero or one. -/
lemma cycleTail_t1_attempts (d : Nat) (env : CycleEnv) (aT bT : ℚ)
    (st : Stats) (e : Nat) (i s : Bool) :
    (cycleTail d env aT bT st e i s).stats.t1ToSepolia.attempts =
        st.t1ToSepolia.attempts ∨
    (cycleTail d env aT bT st e i s).stats.t1ToSepolia.attempts =
        st.t1ToSepolia.attempts + 1 := by
  by_cases h : bT ≥ aT * (11 / 10)
  · right
    by_cases ho : okPath env.t1Env <;>
      simp [cycleTail, h, ho, bridgeT1ToSepolia_eq]
  · left; simp [cycleTail, h]

/-- One cycle advances the Sepolia-direction attempts counter by zero or
one. -/
lemma cycleStep_sepolia_attempts (d : Nat) (env : CycleEnv) (st : Stats) :
    (cycleStep d env st).stats.sepoliaToT1.attempts =
        st.sepoliaToT1.attempts ∨
    (cycleStep d env st).stats.sepoliaToT1.attempts =
        st.sepoliaToT1.attempts + 1 := by
  obtain ⟨r1, r2, sbal, tbal, se, te⟩ := env
  cases sbal with
  | thrown => left; simp [cycleStep]
  | ok bS =>
    cases tbal with
    | thrown => left; simp [cycleStep]
    | ok bT =>
      by_cases hg : bS ≥ getRandomAmount r1 * (11 / 10)
      · right
        by_cases ho : okPath se <;>
          simp [cycleStep, hg, ho, bridgeSepoliaToT1_eq,
            cycleTail_sepolia_stats]
      · left
        simp [cycleStep, hg, cycleTail_sepolia_stats]

/-- One cycle advances the T1-direction attempts counter by zero or one. -/
lemma cycleStep_t1_attempts (d : Nat) (env : CycleEnv) (st : Stats) :
    (cycleStep d env st).stats.t1ToSepolia.attempts =
        st.t1ToSepolia.attempts ∨
    (cycleStep d env st).stats.t1ToSepolia.attempts =
        st.t1ToSepolia.attempts + 1 := by
  obtain ⟨r1, r2, sbal, tbal, se, te⟩ := env
  cases sbal with
  | thrown => left; simp [cycleStep]
  | ok bS =>
    cases tbal with
    | thrown => left; simp [cycleStep]
    | ok bT =>
      by_cases hg : bS ≥ getRandomAmount r1 * (11 / 10)
      · by_cases ho : okPath se
        · simpa [cycleStep, hg, ho, bridgeSepoliaToT1_eq] using
            cycleTail_t1_attempts d ⟨r1, r2, .ok bS, .ok bT, se, te⟩
              (getRandomAmount r2) bT _ (waitedMs (se.wait 1)) true false
        · left; simp [cycleStep, hg, ho, bridgeSepoliaToT1_eq]
      · simpa [cycleStep, hg] using
          cycleTail_t1_attempts d ⟨r1, r2, .ok bS, .ok bT, se, te⟩
            (getRandomAmount r2) bT st 0 false true

/-- If the second half of a cycle lands in the catch block, its last sleep
is the `delay * 2000` backoff. -/
lemma cycleTail_catch (d : Nat) (env : CycleEnv) (aT bT : ℚ) (st : Stats)
    (e : Nat) (i s : Bool) :
    (cycleTail d env aT bT st e i s).errorCaught = false ∨
    (cycleTail d env aT bT st e i s).sleeps.getLast? = some (d * 2000) := by
  by_cases h : bT ≥ aT * (11 / 10)
  · by_cases ho : okPath env.t1Env
    · left; simp [cycleTail, h, ho, bridgeT1ToSepolia_eq]
    · right; simp [cycleTail, h, ho, bridgeT1ToSepolia_eq]
  · left; simp [cycleTail, h]

/-- Any cycle that lands in the catch block ends with the `delay * 2000`
backoff sleep. -/
lemma cycleStep_catch (d : Nat) (env : CycleEnv) (st : Stats) :
    (cycleStep d env st).errorCaught = false ∨
    (cycleStep d env st).sleeps.getLast? = some (d * 2000) := by
  obtain ⟨r1, r2, sbal, tbal, se, te⟩ := env
  cases sbal with
  | thrown => right; simp [cycleStep]
  | ok bS =>
    cases tbal with
    | thrown => right; simp [cycleStep]
    | ok bT =>
      by_cases hg : bS ≥ getRandomAmount r1 * (11 / 10)
      · by_cases ho : okPath se
        · simpa [cycleStep, hg, ho, bridgeSepoliaToT1_eq] using
            cycleTail_catch d ⟨r1, r2, .ok bS, .ok bT, se, te⟩
              (getRandomAmount r2) bT _ (waitedMs (se.wait 1)) true false
        · right; simp [cycleStep, hg, ho, bridgeSepoliaToT1_eq]
      · simpa [cycleStep, hg] using
          cycleTail_catch d ⟨r1, r2, .ok bS, .ok bT, se, te⟩
            (getRandomAmount r2) bT st 0 false true

/-- C1 (counterexample): there is no daily quota in the code.  Running the
loop with the configured 5-second delay in an environment where every call
succeeds, after six cycles only 60 seconds of wall-clock time have passed —
far less than 24 hours, so no reset boundary can have been crossed — yet the
Sepolia-direction operation count is 6, exceeding the spec's daily maximum
of N = 5. -/
theorem claim_C1_counterexample :
    (infiniteBridge 5 (fun _ => goodCycleEnv) 6).elapsedMs <
      24 * 60 * 60 * 1000 ∧
    5 < (infiniteBridge 5 (fun _ => goodCycleEnv) 6).stats.sepoliaToT1.attempts := by
  obtain ⟨h1, h2, h3⟩ := goodRun_spec 6
  rw [h3, h1]
  norm_num

/-- C1 (amended): `infiniteBridge` keeps no per-account counter, reset
timestamp or daily maximum.  Each cycle advances each direction's operation
count by at most one, the counters are never reset, and in an environment
with ample balances and succeeding calls they grow by exactly one per cycle
without bound. -/
theorem claim_C1_amended :
    (∀ (delay : Nat) (envs : Nat → CycleEnv) (k : Nat),
        (infiniteBridge delay envs k).stats.sepoliaToT1.attempts ≤
          (infiniteBridge delay envs (k + 1)).stats.sepoliaToT1.attempts ∧
        (infiniteBridge delay envs (k + 1)).stats.sepoliaToT1.attempts ≤
          (infiniteBridge delay envs k).stats.sepoliaToT1.attempts + 1 ∧
        (infiniteBridge delay envs k).stats.t1ToSepolia.attempts ≤
          (infiniteBridge delay envs (k + 1)).stats.t1ToSepolia.attempts ∧
        (infiniteBridge delay envs (k + 1)).stats.t1ToSepolia.attempts ≤
          (infiniteBridge delay envs k).stats.t1ToSepolia.attempts + 1) ∧
    (∀ k : Nat,
        (infiniteBridge 5 (fun _ => goodCycleEnv) k).stats.sepoliaToT1.attempts
          = k ∧
        (infiniteBridge 5 (fun _ => goodCycleEnv) k).stats.t1ToSepolia.attempts
          = k) := by
  constructor
  · intro d envs k
    have h1 := cycleStep_sepolia_attempts d (envs k)
      (infiniteBridge d envs k).stats
    have h2 := cycleStep_t1_attempts d (envs k) (infiniteBridge d envs k).stats
    have hstep : (infiniteBridge d envs (k + 1)).stats =
        (cycleStep d (envs k) (infiniteBridge d envs k).stats).stats := rfl
    rw [hstep]
    refine ⟨?_, ?_, ?_, ?_⟩ <;>
      rcases h1 with h1 | h1 <;> rcases h2 with h2 | h2 <;> omega
  · intro k
    exact ⟨(goodRun_spec k).1, (goodRun_spec k).2.1⟩

/-- C2 (counterexample): when the receipt confirms with status 1 but the
post-confirmation balance read throws, one single bridge call increments the
attempts counter, the successes counter AND the failures counter — so it is
not the case that exactly one of successes/failures increments. -/
theorem claim_C2_counterexample :
    (bridgeSepoliaToT1 doubleCountEnv (1 / 1000) dirStats0).stats.attempts = 1 ∧
    (bridgeSepoliaToT1 doubleCountEnv (1 / 1000) dirStats0).stats.successes = 1 ∧
    (bridgeSepoliaToT1 doubleCountEnv (1 / 1000) dirStats0).stats.failures = 1 := by
  norm_num [bridgeSepoliaToT1_eq, doubleCountEnv, successPath, cleanSuccess,
    okPath, ExtResult.isOk, isConfirmedOne, raceOutcome, confirmTimeoutMs,
    dirStats0]

/-- C2 (amended): in both directions every call increments attempts by
exactly 1; successes increments by 1 exactly when a status-1 receipt is
obtained, and totalBridged then increases by the bridged amount; failures
increments by 1 in every other situation, and also — in addition to the
success — when the status-1 receipt is followed by a throwing balance read,
the one case where both counters increment. -/
theorem claim_C2_amended (env : BridgeEnv) (a : ℚ) (st : DirStats) :
    (bridgeSepoliaToT1 env a st).stats.attempts = st.attempts + 1 ∧
    (bridgeSepoliaToT1 env a st).stats.successes =
      st.successes + (if successPath env then 1 else 0) ∧
    (bridgeSepoliaToT1 env a st).stats.failures =
      st.failures + (if cleanSuccess env then 0 else 1) ∧
    (bridgeSepoliaToT1 env a st).stats.totalBridged =
      st.totalBridged + (if successPath env then a else 0) ∧
    (bridgeT1ToSepolia env a st).stats.attempts = st.attempts + 1 ∧
    (bridgeT1ToSepolia env a st).stats.successes =
      st.successes + (if successPath env then 1 else 0) ∧
    (bridgeT1ToSepolia env a st).stats.failures =
      st.failures + (if cleanSuccess env then 0 else 1) ∧
    (bridgeT1ToSepolia env a st).stats.totalBridged =
      st.totalBridged + (if successPath env then a else 0) := by
  simp [bridgeSepoliaToT1_eq, bridgeT1ToSepolia_eq]

/-- C3: in both directions the successes counter increments exactly when a
status-1 receipt is obtained before the timeout; a thrown `sendTransaction`,
a timed-out or rejected wait, and a receipt with status other than 1 each
make the failures counter increment by 1. -/
theorem claim_C3 (env : BridgeEnv) (a : ℚ) (st : DirStats) :
    ((bridgeSepoliaToT1 env a st).stats.successes = st.successes + 1 ↔
        successPath env = true) ∧
    ((bridgeT1ToSepolia env a st).stats.successes = st.successes + 1 ↔
        successPath env = true) ∧
    (env.send = .thrown →
        (bridgeSepoliaToT1 env a st).stats.failures = st.failures + 1 ∧
        (bridgeT1ToSepolia env a st).stats.failures = st.failures + 1) ∧
    (raceOutcome (env.wait 1) = .timedOut ∨
        raceOutcome (env.wait 1) = .errored →
        (bridgeSepoliaToT1 env a st).stats.failures = st.failures + 1 ∧
        (bridgeT1ToSepolia env a st).stats.failures = st.failures + 1) ∧
    (∀ s, raceOutcome (env.wait 1) = .confirmed s → s ≠ 1 →
        (bridgeSepoliaToT1 env a st).stats.failures = st.failures + 1 ∧
        (bridgeT1ToSepolia env a st).stats.failures = st.failures + 1) := by
  refine ⟨?_, ?_, ?_, ?_, ?_⟩
  · by_cases h : successPath env <;>
      simp [bridgeSepoliaToT1_eq, h]
  · by_cases h : successPath env <;>
      simp [bridgeT1ToSepolia_eq, h]
  · intro h
    have hcs : cleanSuccess env = false := by
      simp [cleanSuccess, successPath, okPath, h, ExtResult.isOk]
    simp [bridgeSepoliaToT1_eq, bridgeT1ToSepolia_eq, hcs]
  · intro h
    have hcs : cleanSuccess env = false := by
      rcases h with h | h <;>
        simp [cleanSuccess, successPath, h, isConfirmedOne]
    simp [bridgeSepoliaToT1_eq, bridgeT1ToSepolia_eq, hcs]
  · intro s hs hne
    have hcs : cleanSuccess env = false := by
      simp [cleanSuccess, successPath, hs, isConfirmedOne, hne]
    simp [bridgeSepoliaToT1_eq, bridgeT1ToSepolia_eq, hcs]

/-- C3 (witness): in the environment whose `sendTransaction` throws, the
failures counter increments. -/
theorem claim_C3_witness :
    sendFailEnv.send = .thrown ∧
    (bridgeSepoliaToT1 sendFailEnv (1 / 1000) dirStats0).stats.failures =
      dirStats0.failures + 1 :=
  ⟨rfl, ((claim_C3 sendFailEnv (1 / 1000) dirStats0).2.2.1 rfl).1⟩

/-- C4 (counterexample): an error thrown by `sendTransaction` inside one
bridge attempt is counted as a failure but then RETHROWN out of the bridge
operation (the result is a thrown exception, not a normal return),
contradicting the claim that such errors do not propagate. -/
theorem claim_C4_counterexample :
    (bridgeSepoliaToT1 sendFailEnv (1 / 1000) dirStats0).ret = .thrown ∧
    (bridgeSepoliaToT1 sendFailEnv (1 / 1000) dirStats0).stats.failures = 1 := by
  norm_num [bridgeSepoliaToT1_eq, sendFailEnv, okPath, cleanSuccess,
    successPath, ExtResult.isOk, dirStats0]

/-- C4 (amended): errors of the confirmation phase (timeout, wait rejection,
bad receipt status, failing post-success balance read) are caught inside the
bridge operation, which then returns normally; errors raised before or
during submission (balance read, fee query, send) are counted as a failure
but propagate out of the bridge operation — the bridge call throws exactly
when one of those three external calls throws. -/
theorem claim_C4_amended (env : BridgeEnv) (a : ℚ) (st : DirStats) :
    ((bridgeSepoliaToT1 env a st).ret = .thrown ↔ okPath env = false) ∧
    ((bridgeT1ToSepolia env a st).ret = .thrown ↔ okPath env = false) ∧
    ((bridgeSepoliaToT1 env a st).ret = .thrown →
        (bridgeSepoliaToT1 env a st).stats.failures = st.failures + 1) ∧
    ((bridgeT1ToSepolia env a st).ret = .thrown →
        (bridgeT1ToSepolia env a st).stats.failures = st.failures + 1) ∧
    (okPath env = true →
        (bridgeSepoliaToT1 env a st).ret = .ok a ∧
        (bridgeT1ToSepolia env a st).ret = .ok a) := by
  by_cases h : okPath env
  · have hcs1 : (bridgeSepoliaToT1 env a st).ret = .ok a := by
      simp [bridgeSepoliaToT1_eq, h]
    have hcs2 : (bridgeT1ToSepolia env a st).ret = .ok a := by
      simp [bridgeT1ToSepolia_eq, h]
    simp [hcs1, hcs2, h]
  · have hcs : cleanSuccess env = false := by
      simp [cleanSuccess, successPath]
      intro hok
      exact absurd hok (by simpa using h)
    simp [bridgeSepoliaToT1_eq, bridgeT1ToSepolia_eq, h, hcs,
      Bool.not_eq_true] at h ⊢

/-- C4 (witness): in the environment where submission succeeds but the
confirmation never arrives, the bridge call returns normally. -/
theorem claim_C4_witness :
    okPath timeoutEnv = true ∧
    (bridgeSepoliaToT1 timeoutEnv (1 / 1000) dirStats0).ret = .ok (1 / 1000) :=
  ⟨by norm_num [okPath, timeoutEnv, ExtResult.isOk],
   ((claim_C4_amended timeoutEnv (1 / 1000) dirStats0).2.2.2.2
      (by norm_num [okPath, timeoutEnv, ExtResult.isOk])).1⟩

/-- C5: for any `Math.random()` draw in `[0, 1)`, `getRandomAmount` returns
a value in `[minAmount, maxAmount]` inclusive, and the value is an integer
multiple of `10 ^ (-6)` (six decimal places). -/
theorem claim_C5 (r : ℚ) (h0 : 0 ≤ r) (h1 : r < 1) :
    minAmount ≤ getRandomAmount r ∧ getRandomAmount r ≤ maxAmount ∧
    ∃ n : ℤ, getRandomAmount r = (n : ℚ) / 1000000 := by
  have hd : minAmount ≤ r * (maxAmount - minAmount) + minAmount := by
    have hn : (0:ℚ) ≤ r * (maxAmount - minAmount) := by
      apply mul_nonneg h0
      norm_num [minAmount, maxAmount]
    linarith
  have hu : r * (maxAmount - minAmount) + minAmount < maxAmount := by
    have hpos : (0:ℚ) < maxAmount - minAmount := by
      norm_num [minAmount, maxAmount]
    have h2 : r * (maxAmount - minAmount) < 1 * (maxAmount - minAmount) :=
      mul_lt_mul_of_pos_right h1 hpos
    linarith
  have hgr : getRandomAmount r =
      ((⌊(r * (maxAmount - minAmount) + minAmount) * 1000000 + 1 / 2⌋ : ℤ) : ℚ)
        / 1000000 := rfl
  have hfl : (200:ℤ) ≤
      ⌊(r * (maxAmount - minAmount) + minAmount) * 1000000 + 1 / 2⌋ := by
    apply Int.le_floor.mpr
    push_cast
    have : minAmount * 1000000 = 200 := by norm_num [minAmount]
    nlinarith [hd]
  have hfu : ⌊(r * (maxAmount - minAmount) + minAmount) * 1000000 + 1 / 2⌋ ≤
      (10000:ℤ) := by
    have hlt : ⌊(r * (maxAmount - minAmount) + minAmount) * 1000000 + 1 / 2⌋ <
        (10001:ℤ) := by
      apply Int.floor_lt.mpr
      push_cast
      have : maxAmount * 1000000 = 10000 := by norm_num [maxAmount]
      nlinarith [hu]
    omega
  have hflq : (200:ℚ) ≤
      ((⌊(r * (maxAmount - minAmount) + minAmount) * 1000000 + 1 / 2⌋ : ℤ) : ℚ) := by
    exact_mod_cast hfl
  have hfuq :
      ((⌊(r * (maxAmount - minAmount) + minAmount) * 1000000 + 1 / 2⌋ : ℤ) : ℚ) ≤
        (10000:ℚ) := by
    exact_mod_cast hfu
  have hmin : minAmount = 2 / 10000 := by norm_num [minAmount]
  have hmax : maxAmount = 1 / 100 := by norm_num [maxAmount]
  refine ⟨?_, ?_, ⟨_, hgr⟩⟩
  · rw [hgr]; linarith
  · rw [hgr]; linarith

/-- C5 (witness): the midpoint draw stays within the configured bounds. -/
theorem claim_C5_witness :
    (0:ℚ) ≤ 1 / 2 ∧ minAmount ≤ getRandomAmount (1 / 2) ∧
    getRandomAmount (1 / 2) ≤ maxAmount :=
  ⟨by norm_num, (claim_C5 (1 / 2) (by norm_num) (by norm_num)).1,
   (claim_C5 (1 / 2) (by norm_num) (by norm_num)).2.1⟩

/-- C6: the native value attached to a submitted Sepolia → T1 transaction is
the bridged amount plus the fixed `parseEther("0.0001") = 10^14` wei buffer,
while the value attached to a T1 → Sepolia transaction equals the bridged
amount exactly. -/
theorem claim_C6 (env : BridgeEnv) (a : ℚ) (st : DirStats) :
    parseEther (1 / 10000) = 100000000000000 ∧
    (∀ tx, (bridgeSepoliaToT1 env a st).sentTx = some tx →
        tx.value = tx.data.value + parseEther (1 / 10000) ∧
        tx.data.value = parseEther a) ∧
    (∀ tx, (bridgeT1ToSepolia env a st).sentTx = some tx →
        tx.value = tx.data.value ∧ tx.data.value = parseEther a) := by
  refine ⟨by norm_num [parseEther], ?_, ?_⟩
  · intro tx htx
    rw [bridgeSepoliaToT1_eq] at htx
    by_cases h : (env.startBalance.isOk && env.feeData.isOk) = true
    · simp [h] at htx
      rw [← htx]
      simp [sepoliaToT1Tx, sepoliaToT1TxData]
    · simp [h] at htx
  · intro tx htx
    rw [bridgeT1ToSepolia_eq] at htx
    by_cases h : (env.startBalance.isOk && env.feeData.isOk) = true
    · simp [h] at htx
      rw [← htx]
      simp [t1ToSepoliaTx, t1ToSepoliaTxData]
    · simp [h] at htx

/-- C6 (witness): the outbound transaction sent in the all-success
environment carries the amount plus the fixed buffer. -/
theorem claim_C6_witness :
    (bridgeSepoliaToT1 goodBridgeEnv (1 / 1000) dirStats0).sentTx =
      some (sepoliaToT1Tx (1 / 1000)) ∧
    (sepoliaToT1Tx (1 / 1000)).value =
      (sepoliaToT1Tx (1 / 1000)).data.value + parseEther (1 / 10000) :=
  ⟨by norm_num [bridgeSepoliaToT1_eq, goodBridgeEnv, okPath, ExtResult.isOk],
   ((claim_C6 goodBridgeEnv (1 / 1000) dirStats0).2.1 (sepoliaToT1Tx (1 / 1000))
      (by norm_num [bridgeSepoliaToT1_eq, goodBridgeEnv, okPath,
        ExtResult.isOk])).1⟩

/-- C7 (counterexample): for a wallet whose derived address is "0x1234", the
callback address of the encoded payload is the fixed `RECEIVER_ADDRESS`
constant, which differs from the account's own address — contradicting the
claim that the callback address equals the same account's address. -/
theorem claim_C7_counterexample :
    otherWalletEnv.walletAddress = "0x1234" ∧
    (bridgeSepoliaToT1 otherWalletEnv (1 / 1000) dirStats0).sentTx =
      some (sepoliaToT1Tx (1 / 1000)) ∧
    (sepoliaToT1Tx (1 / 1000)).data.callbackAddress ≠
      otherWalletEnv.walletAddress := by
  refine ⟨rfl, ?_, ?_⟩
  · norm_num [bridgeSepoliaToT1_eq, otherWalletEnv, okPath, ExtResult.isOk]
  · simp [sepoliaToT1Tx, sepoliaToT1TxData, RECEIVER_ADDRESS, otherWalletEnv]

/-- C7 (amended): the encoded payload passes the bridged amount as value, an
empty message, gas limit 168000 outbound and 0 inbound, the chain id of the
opposite network, and a callback address equal to the fixed configured
`RECEIVER_ADDRESS` constant — the same value as the destination address —
independent of the bridging account's wallet address. -/
theorem claim_C7_amended (env : BridgeEnv) (a : ℚ) (st : DirStats) :
    (∀ tx, (bridgeSepoliaToT1 env a st).sentTx = some tx →
        tx.toAddr = SEPOLIA_TO_T1_BRIDGE ∧
        tx.data.value = parseEther a ∧ tx.data.message = [] ∧
        tx.data.gasLimit = 168000 ∧ tx.data.gasLimit ≠ 0 ∧
        tx.data.destChainId = T1_CHAIN_ID ∧
        tx.data.callbackAddress = RECEIVER_ADDRESS ∧
        tx.data.toAddr = RECEIVER_ADDRESS) ∧
    (∀ tx, (bridgeT1ToSepolia env a st).sentTx = some tx →
        tx.toAddr = T1_TO_SEPOLIA_BRIDGE ∧
        tx.data.value = parseEther a ∧ tx.data.message = [] ∧
        tx.data.gasLimit = 0 ∧
        tx.data.destChainId = SEPOLIA_CHAIN_ID ∧
        tx.data.callbackAddress = RECEIVER_ADDRESS ∧
        tx.data.toAddr = RECEIVER_ADDRESS) := by
  constructor
  · intro tx htx
    rw [bridgeSepoliaToT1_eq] at htx
    by_cases h : (env.startBalance.isOk && env.feeData.isOk) = true
    · simp [h] at htx
      rw [← htx]
      simp [sepoliaToT1Tx, sepoliaToT1TxData]
    · simp [h] at htx
  · intro tx htx
    rw [bridgeT1ToSepolia_eq] at htx
    by_cases h : (env.startBalance.isOk && env.feeData.isOk) = true
    · simp [h] at htx
      rw [← htx]
      simp [t1ToSepoliaTx, t1ToSepoliaTxData]
    · simp [h] at htx

/-- C7 (witness): the inbound transaction sent in the all-success
environment has gas limit 0 in its payload. -/
theorem claim_C7_witness :
    (bridgeT1ToSepolia goodBridgeEnv (1 / 1000) dirStats0).sentTx =
      some (t1ToSepoliaTx (1 / 1000)) ∧
    (t1ToSepoliaTx (1 / 1000)).data.gasLimit = 0 :=
  ⟨by norm_num [bridgeT1ToSepolia_eq, goodBridgeEnv, okPath, ExtResult.isOk],
   ((claim_C7_amended goodBridgeEnv (1 / 1000) dirStats0).2
      (t1ToSepoliaTx (1 / 1000))
      (by norm_num [bridgeT1ToSepolia_eq, goodBridgeEnv, okPath,
        ExtResult.isOk])).2.2.2.1⟩

/-- C8: the confirmation race waits for one confirmation bounded by the
120000 ms timer; any wait that settles at or after the bound times out, a
timed-out wait is counted as a failure (never a success), and the bridge
call still returns normally — no retry happens inside the call. -/
theorem claim_C8 (env : BridgeEnv) (a : ℚ) (st : DirStats)
    (hok : okPath env = true) (ht : raceOutcome (env.wait 1) = .timedOut) :
    (bridgeSepoliaToT1 env a st).ret = .ok a ∧
    (bridgeSepoliaToT1 env a st).stats.attempts = st.attempts + 1 ∧
    (bridgeSepoliaToT1 env a st).stats.successes = st.successes ∧
    (bridgeSepoliaToT1 env a st).stats.failures = st.failures + 1 ∧
    (bridgeT1ToSepolia env a st).ret = .ok a ∧
    (bridgeT1ToSepolia env a st).stats.attempts = st.attempts + 1 ∧
    (bridgeT1ToSepolia env a st).stats.successes = st.successes ∧
    (bridgeT1ToSepolia env a st).stats.failures = st.failures + 1 ∧
    (∀ t s, confirmTimeoutMs ≤ t → raceOutcome (.resolves t s) = .timedOut) ∧
    raceOutcome .never = .timedOut ∧
    confirmTimeoutMs = 120000 := by
  have hsp : successPath env = false := by
    simp [successPath, ht, isConfirmedOne]
  have hcs : cleanSuccess env = false := by simp [cleanSuccess, hsp]
  refine ⟨?_, ?_, ?_, ?_, ?_, ?_, ?_, ?_, ?_, rfl, rfl⟩ <;>
    first
    | simp [bridgeSepoliaToT1_eq, bridgeT1ToSepolia_eq, hok, hsp, hcs]
    | (intro t s hlt; simp [raceOutcome, Nat.not_lt.mpr hlt])

/-- C8 (witness): a wait that never settles times out, counts one failure
and the call returns normally. -/
theorem claim_C8_witness :
    okPath timeoutEnv = true ∧
    raceOutcome (timeoutEnv.wait 1) = .timedOut ∧
    (bridgeSepoliaToT1 timeoutEnv (1 / 1000) dirStats0).ret = .ok (1 / 1000) ∧
    (bridgeSepoliaToT1 timeoutEnv (1 / 1000) dirStats0).stats.failures =
      dirStats0.failures + 1 :=
  ⟨by norm_num [okPath, timeoutEnv, ExtResult.isOk], rfl,
   (claim_C8 timeoutEnv (1 / 1000) dirStats0
      (by norm_num [okPath, timeoutEnv, ExtResult.isOk]) rfl).1,
   (claim_C8 timeoutEnv (1 / 1000) dirStats0
      (by norm_num [okPath, timeoutEnv, ExtResult.isOk]) rfl).2.2.2.1⟩

/-- C9: whenever the catch block of a cycle runs, the last sleep of that
cycle is exactly double the normal `delay * 1000` inter-operation sleep, and
the loop always continues — the state after `k + 1` cycles is always the
cycle step applied to the state after `k` cycles, error or not. -/
theorem claim_C9 :
    (∀ (delay : Nat) (env : CycleEnv) (st : Stats),
        (cycleStep delay env st).errorCaught = true →
        (cycleStep delay env st).sleeps.getLast? =
          some (2 * (delay * 1000))) ∧
    (∀ (delay : Nat) (envs : Nat → CycleEnv) (k : Nat),
        (infiniteBridge delay envs (k + 1)).stats =
          (cycleStep delay (envs k) (infiniteBridge delay envs k).stats).stats) := by
  constructor
  · intro d env st h
    rcases cycleStep_catch d env st with hc | hc
    · rw [h] at hc; simp at hc
    · rw [hc]
      congr 1
      ring
  · intro d envs k
    rfl

/-- C9 (witness): a cycle whose Sepolia balance read throws is caught and
ends with the 10-second backoff sleep (double the 5-second delay). -/
theorem claim_C9_witness :
    (cycleStep 5 badBalanceEnv stats0).errorCaught = true ∧
    (cycleStep 5 badBalanceEnv stats0).sleeps.getLast? =
      some (2 * (5 * 1000)) :=
  ⟨by simp [cycleStep, badBalanceEnv],
   claim_C9.1 5 badBalanceEnv stats0 (by simp [cycleStep, badBalanceEnv])⟩

/-- C10: with both balance reads succeeding, the Sepolia → T1 bridge runs
exactly when the Sepolia balance is at least 1.1 times the drawn amount
(otherwise the warning branch runs instead); the T1 → Sepolia bridge runs
only if the T1 balance read at the start of the cycle is at least 1.1 times
its drawn amount; a skipped Sepolia direction leaves the T1 direction's
guard outcome unchanged; and an insufficient T1 balance never invokes the
T1 bridge and, when no error aborted the cycle, lands in the warning
branch. -/
theorem claim_C10 (delay : Nat) (env : CycleEnv) (st : Stats) (bS bT : ℚ)
    (hS : env.sepoliaBalance = .ok bS) (hT : env.t1Balance = .ok bT) :
    ((cycleStep delay env st).sepoliaInvoked = true ↔
        bS ≥ getRandomAmount env.rand1 * (11 / 10)) ∧
    ((cycleStep delay env st).sepoliaSkipped = true ↔
        ¬ bS ≥ getRandomAmount env.rand1 * (11 / 10)) ∧
    ((cycleStep delay env st).t1Invoked = true →
        bT ≥ getRandomAmount env.rand2 * (11 / 10)) ∧
    (¬ bS ≥ getRandomAmount env.rand1 * (11 / 10) →
        ((cycleStep delay env st).t1Invoked = true ↔
          bT ≥ getRandomAmount env.rand2 * (11 / 10))) ∧
    (¬ bT ≥ getRandomAmount env.rand2 * (11 / 10) →
        (cycleStep delay env st).t1Invoked = false ∧
        ((cycleStep delay env st).errorCaught = false →
          (cycleStep delay env st).t1Skipped = true)) := by
  obtain ⟨r1, r2, sbal, tbal, se, te⟩ := env
  simp only at hS hT
  subst hS; subst hT
  by_cases hgS : bS ≥ getRandomAmount r1 * (11 / 10) <;>
  by_cases ho : okPath se <;>
  by_cases hgT : bT ≥ getRandomAmount r2 * (11 / 10) <;>
  by_cases hoT : okPath te <;>
    simp [cycleStep, cycleTail, hgS, ho, hgT, hoT,
      bridgeSepoliaToT1_eq, bridgeT1ToSepolia_eq]

/-- C10 (witness): in the ample-balance environment the Sepolia direction is
invoked, matching its balance guard. -/
theorem claim_C10_witness :
    ((cycleStep 5 goodCycleEnv stats0).sepoliaInvoked = true ↔
      (1000:ℚ) ≥ getRandomAmount 0 * (11 / 10)) :=
  (claim_C10 5 goodCycleEnv stats0 1000 1000 rfl rfl).1

end T1Bridge
